import Mathlib

/-!
Shallow embedding of `mmdeploy/codebase/mmdet/models/dense_heads/yolo_head.py`:
the deploy-time rewrites of `YOLOV3Head.predict_by_feat` for the generic
backend (`yolov3_head__predict_by_feat`, lines 19-178) and for the ncnn
backend (`yolov3_head__predict_by_feat__ncnn`, lines 184-281).

Modelling choices:
* torch tensors are nested lists over a scalar type `K`, an arbitrary linearly
  ordered commutative ring (standing for the floating point scalars);
* external collaborators (torch.sigmoid, the bbox coder, the prior generator,
  the deployment parameter bundle) are function/record parameters;
* fallible torch operations (failed assertions, out-of-range indexing,
  `topk` with too large `k`, `reshape` with an unresolvable `-1`) are
  `Except PipelineError` values;
* the global torch RNG used by `torch.rand` is threaded as explicit state.
-/

deriving instance DecidableEq for Except

namespace MMDeployYolo

variable {K : Type} [LinearOrderedCommRing K]

/-- Objectness tensor of shape `(batch, anchors)`. -/
abbrev ConfT (K : Type) := List (List K)

/-- Per-class score tensor of shape `(batch, anchors, classes)`. -/
abbrev ScoreT (K : Type) := List (List (List K))

/-- Decoded box tensor of shape `(batch, anchors, 4)`. -/
abbrev BoxT (K : Type) := List (List (List K))

/-- One raw prediction map of shape `(batch, channels, height, width)`. -/
abbrev PredMap (K : Type) := List (List (List (List K)))

/-- `reshape`: regroup a flat list into consecutive groups of `n` (row major).
The auxiliary fuel argument (instantiated with the list length) makes the
recursion structural. -/
def chunksOfAux {α : Type} (n : Nat) : Nat → List α → List (List α)
  | 0, _ => []
  | _, [] => []
  | Nat.succ fuel, l => l.take n :: chunksOfAux n fuel (l.drop n)

/-- `reshape (-1, n)` of a flat list: consecutive groups of `n`. -/
def chunksOf {α : Type} (n : Nat) (l : List α) : List (List α) :=
  if n = 0 then [] else chunksOfAux n l.length l

/-- The per-call test / post-processing configuration (`cfg`, falling back to
`self.test_cfg`): a python dict, so every key may be absent (`none`).
`nms_iou_threshold` models `cfg.nms['iou_threshold']`.  The trailing fields
`max_output_boxes_per_class` and `pre_top_k` model keys a caller may put into
the dict; the rewriter never reads them. -/
structure TestCfg (K : Type) where
  score_thr : Option K := none
  conf_thr : Option K := none
  nms_pre : Option Int := none
  max_per_img : Option Int := none
  nms_iou_threshold : Option K := none
  max_output_boxes_per_class : Option Int := none
  pre_top_k : Option Int := none
  deriving DecidableEq

/-- Modelled from the spec: the deployment-wide defaults bundle returned by
`get_post_processing_params` (that helper lives outside `src/`): "a
deployment-wide defaults object used whenever a key is absent from the
per-call configuration". -/
structure PostParams (K : Type) where
  score_threshold : K
  confidence_threshold : K
  iou_threshold : K
  max_output_boxes_per_class : Int
  pre_top_k : Int
  keep_top_k : Int
  deriving DecidableEq

/-- The deployment config (`ctx.cfg` / `deploy_cfg`): the "dynamic input
shape" flag and the post-processing defaults. -/
structure DeployCfg (K : Type) where
  is_dynamic : Bool
  post_params : PostParams K

/-- Modelled from the spec: `get_post_processing_params(deploy_cfg)` (outside
`src/`) returns the deployment defaults bundle. -/
def get_post_processing_params (deploy_cfg : DeployCfg K) : PostParams K :=
  deploy_cfg.post_params

/-- Modelled from the spec: `is_dynamic_shape(ctx.cfg)` (outside `src/`) reads
the deployment "dynamic input shape" flag. -/
def is_dynamic_shape (deploy_cfg : DeployCfg K) : Bool :=
  deploy_cfg.is_dynamic

/-- The `YOLOV3Head` instance (`self`) together with its collaborators.
`grid_anchors` is `self.prior_generator.grid_anchors` (featmap sizes to
per-level anchor tensors); `bbox_decode` is `self.bbox_coder.decode` applied
anchor-row by anchor-row (matching its broadcast semantics: the anchor tensor
is unsqueezed over the batch); `base_sizes` is
`self.prior_generator.base_sizes`. -/
structure Head (K : Type) where
  num_levels : Nat
  num_classes : Nat
  num_attrib : Nat
  featmap_strides : List K
  grid_anchors : List (Nat × Nat) → List (List (List K))
  bbox_decode : List K → List K → K → List K
  base_sizes : List (List (K × K))
  test_cfg : TestCfg K

/-- Line 116: `score_threshold = cfg.get('score_thr', post_params.score_threshold)`. -/
def resolved_score_threshold (cfg : TestCfg K) (post_params : PostParams K) : K :=
  cfg.score_thr.getD post_params.score_threshold

/-- Lines 117-118: `confidence_threshold = cfg.get('conf_thr',
post_params.confidence_threshold)`. -/
def resolved_confidence_threshold (cfg : TestCfg K) (post_params : PostParams K) : K :=
  cfg.conf_thr.getD post_params.confidence_threshold

/-- Line 163: `iou_threshold = cfg.nms.get('iou_threshold', post_params.iou_threshold)`. -/
def resolved_iou_threshold (cfg : TestCfg K) (post_params : PostParams K) : K :=
  cfg.nms_iou_threshold.getD post_params.iou_threshold

/-- Line 162: `max_output_boxes_per_class = post_params.max_output_boxes_per_class`.
The per-call config is not consulted. -/
def resolved_max_output_boxes_per_class (_cfg : TestCfg K) (post_params : PostParams K) : Int :=
  post_params.max_output_boxes_per_class

/-- Line 164: `pre_top_k = post_params.pre_top_k`.  The per-call config is not
consulted. -/
def resolved_pre_top_k (_cfg : TestCfg K) (post_params : PostParams K) : Int :=
  post_params.pre_top_k

/-- Line 165: `keep_top_k = cfg.get('max_per_img', post_params.keep_top_k)`. -/
def resolved_keep_top_k (cfg : TestCfg K) (post_params : PostParams K) : Int :=
  cfg.max_per_img.getD post_params.keep_top_k

/-- Line 75: `pre_topk = cfg.get('nms_pre', -1)`.  The deployment defaults are
not consulted; the fallback is the literal `-1`. -/
def resolved_nms_pre (cfg : TestCfg K) : Int :=
  cfg.nms_pre.getD (-1)

/-- Line 122: `mask = batch_mlvl_conf_scores >= confidence_threshold`. -/
def confidence_mask (confidence_threshold : K) (conf : ConfT K) : List (List Bool) :=
  conf.map (fun row => row.map (fun v => decide (confidence_threshold ≤ v)))

/-- `x.where(mask, x.new_zeros(1))` for a `(batch, anchors)` tensor
(lines 123-124). -/
def whereMask1 (mask : List (List Bool)) (x : ConfT K) : ConfT K :=
  List.zipWith (fun mrow xrow => List.zipWith (fun m v => if m then v else 0) mrow xrow) mask x

/-- `x.where(mask.unsqueeze(-1), x.new_zeros(1))` for a three dimensional
tensor: the mask broadcasts over the trailing axis (lines 125-128). -/
def whereMask2 (mask : List (List Bool)) (x : List (List (List K))) : List (List (List K)) :=
  List.zipWith (fun mrow xrow =>
    List.zipWith (fun m r => if m then r else r.map (fun _ => 0)) mrow xrow) mask x

/-- Lines 121-128: the confidence-thresholding stage.  If the threshold is
positive, candidates whose objectness fails `conf >= thr` have objectness,
per-class scores and box zeroed in place; otherwise the stage does nothing. -/
def confThresholdStage (confidence_threshold : K) (conf : ConfT K) (scores : ScoreT K)
    (boxes : BoxT K) : ConfT K × ScoreT K × BoxT K :=
  if 0 < confidence_threshold then
    let mask := confidence_mask confidence_threshold conf
    (whereMask1 mask conf, whereMask2 mask scores, whereMask2 mask boxes)
  else (conf, scores, boxes)

/-- Lines 130-133: the score-thresholding stage.  If the threshold is
positive, per-class scores failing `score > thr` are zeroed in place;
otherwise the stage does nothing. -/
def scoreThresholdStage (score_threshold : K) (scores : ScoreT K) : ScoreT K :=
  if 0 < score_threshold then
    scores.map (fun rows => rows.map (fun r =>
      r.map (fun v => if score_threshold < v then v else 0)))
  else scores

/-- Modelled from the spec: `pad_with_value_if_necessary(x, 1, pad_size,
pad_value)` (helper outside `src/`): "pad all three tensors along the anchor
dimension up to at least the top-k size".  `pad` is one padded element of the
anchor axis (the box pad value is unspecified in the source, where it is
`None`; the claims do not depend on it). -/
def pad_with_value_if_necessary {β : Type} (x : List (List β)) (pad_size : Nat) (pad : β) :
    List (List β) :=
  x.map (fun row => row ++ List.replicate (pad_size - row.length) pad)

/-- `torch.topk(k, dim=1)` along one row: indices of the `k` largest entries,
largest first, ties broken by the lower index (insertion sort is stable). -/
def topkIndices (k : Nat) (xs : List K) : List Nat :=
  (((xs.enum).insertionSort (fun a b => b.2 ≤ a.2)).take k).map Prod.fst

/-- Runtime failures of the rewritten pipeline. -/
inductive PipelineError where
  /-- `assert len(pred_maps_list) == self.num_levels` fails (line 65). -/
  | levelCountMismatch
  /-- `pred_maps_list[0]` on an empty sequence (line 67). -/
  | indexOutOfRange
  /-- `torch.topk` with `k` larger than the flattened anchor-class axis (lines 142-143). -/
  | topkOutOfRange
  /-- a gather index falls outside the flattened tensor (lines 151-157). -/
  | gatherOutOfBounds
  /-- `reshape(batch_size, -1, ...)` cannot infer `-1` for an empty batch. -/
  | reshapeAmbiguous
  deriving DecidableEq

/-- Lines 135-157: the pre-NMS top-k stage.  Pad the three tensors along the
anchor axis up to `pre_topk`, flatten the per-batch `(anchor, class)` scores,
take the top-k flat indices, stack their quotients and remainders by
`num_classes` (line 144-145), add the batch offsets
`batch_mlvl_bboxes.shape[1] * batch_inds` (lines 146-150), and gather from the
flattened boxes/scores/objectness, reshaping back to `(batch_size, -1, ...)`
(lines 151-157).  Indexing outside a flattened tensor is a torch runtime
error, modelled as `Except.error`. -/
def topkStage (num_classes pre_topk : Nat) (boxes : BoxT K) (scores : ScoreT K)
    (conf : ConfT K) : Except PipelineError (BoxT K × ScoreT K × ConfT K) :=
  let boxes := pad_with_value_if_necessary boxes pre_topk (List.replicate 4 0)
  let conf := pad_with_value_if_necessary conf pre_topk 0
  let scores := pad_with_value_if_necessary scores pre_topk (List.replicate num_classes 0)
  let batch_size := boxes.length
  let flatScores := scores.map List.flatten
  if flatScores.any (fun r => decide (r.length < pre_topk)) then .error .topkOutOfRange else
  let topk_inds := flatScores.map (topkIndices pre_topk)
  let stacked := [topk_inds.map (fun r => r.map (fun v => v / num_classes)),
                  topk_inds.map (fun r => r.map (fun v => v % num_classes))]
  let stride := (boxes.headD []).length
  let transformed := stacked.map (fun layer =>
    (layer.enum).map (fun p => p.2.map (fun v => stride * p.1 + v)))
  let boxesFlat := boxes.flatten
  let scoresFlat := scores.flatten
  let confFlat := conf.flatten
  match transformed.mapM (fun layer => layer.mapM (fun row => row.mapM (fun i => boxesFlat[i]?))),
        transformed.mapM (fun layer => layer.mapM (fun row => row.mapM (fun i => scoresFlat[i]?))),
        transformed.mapM (fun layer => layer.mapM (fun row => row.mapM (fun i => confFlat[i]?))) with
  | some gb, some gs, some gc =>
    if batch_size = 0 then .error .reshapeAmbiguous
    else
      let gbRows := (gb.map List.flatten).flatten
      let gsRows := (gs.map List.flatten).flatten
      let gcVals := (gc.map List.flatten).flatten
      .ok (chunksOf (gbRows.length / batch_size) gbRows,
           chunksOf (gsRows.length / batch_size) gsRows,
           chunksOf (gcVals.length / batch_size) gcVals)
  | _, _, _ => .error .gatherOutOfBounds

/-- Lines 159-160: fused score = per-class score times objectness, the
objectness broadcast over the class axis after `unsqueeze(2)`. -/
def fuseScores (scores : ScoreT K) (conf : ConfT K) : ScoreT K :=
  List.zipWith (fun srows crow =>
    List.zipWith (fun r c => r.map (fun v => v * c)) srows crow) scores conf

/-- The argument bundle handed to the external `multiclass_nms` collaborator
(lines 169-176). -/
structure NMSCall (K : Type) where
  boxes : BoxT K
  scores : ScoreT K
  max_output_boxes_per_class : Int
  iou_threshold : K
  score_threshold : K
  pre_top_k : Int
  keep_top_k : Int
  deriving DecidableEq

/-- Result of the generic rewrite: either the delegated NMS call
(`with_nms=True`) or the raw filtered pair (`with_nms=False`). -/
inductive PredictResult (K : Type) where
  | nmsCall (args : NMSCall K)
  | raw (boxes : BoxT K) (scores : ScoreT K)
  deriving DecidableEq

/-- Lines 85-86: `pred_map.permute(0, 2, 3, 1).reshape(batch_size, -1,
num_attrib)`: move channels last, then group each batch item's flattened
`(h, w, channel)` values into rows of `num_attrib`. -/
def permuteReshape (num_attrib : Nat) (pm : PredMap K) : List (List (List K)) :=
  pm.map (fun chw =>
    let C := chw.length
    let H := (chw.headD []).length
    let W := ((chw.headD []).headD []).length
    chunksOf num_attrib
      ((((List.range H).map (fun h => (List.range W).map (fun w =>
          (List.range C).map (fun c => ((chw.getD c []).getD h []).getD w 0)))).flatten).flatten))

/-- Lines 79-109 for one pyramid level: sigmoid on the first two attributes
(lines 90-92), box decode against the broadcast anchors (lines 93-100),
sigmoid objectness (line 102), and sigmoid class scores reshaped to
`(batch, -1, num_classes)` (lines 103-104). -/
def decodeLevel (σ : K → K) (self : Head K) (anchors : List (List K)) (stride : K)
    (pred_map : PredMap K) : BoxT K × ScoreT K × ConfT K :=
  let pm := permuteReshape self.num_attrib pred_map
  let pm := pm.map (fun rows => rows.map (fun r => (r.take 2).map σ ++ r.drop 2))
  let pred_map_boxes := pm.map (fun rows => rows.map (fun r => r.take 4))
  let bbox_pred := pred_map_boxes.map (fun rows =>
    List.zipWith (fun anc p => self.bbox_decode anc p stride) anchors rows)
  let conf_pred := pm.map (fun rows => rows.map (fun r => σ (r.getD 4 0)))
  let cls_pred := pm.map (fun rows =>
    chunksOf self.num_classes ((rows.map (fun r => (r.drop 5).map σ)).flatten))
  (bbox_pred, cls_pred, conf_pred)

/-- `torch.cat(xs, dim=1)` for a list of per-level batched tensors
(lines 111-113). -/
def catDim1 {α : Type} (ts : List (List (List α))) : List (List α) :=
  (List.transpose ts).map List.flatten

/-- Lines 159-178: fuse the scores and either build the `multiclass_nms`
call (with the score threshold forced to `0`, line 168) or return the raw
pair. -/
def finalStage (cfg : TestCfg K) (post_params : PostParams K) (with_nms : Bool)
    (bb : BoxT K) (ss : ScoreT K) (cc : ConfT K) : PredictResult K :=
  let fused := fuseScores ss cc
  if with_nms then
    let score_threshold : K := 0
    .nmsCall {
      boxes := bb
      scores := fused
      max_output_boxes_per_class := resolved_max_output_boxes_per_class cfg post_params
      iou_threshold := resolved_iou_threshold cfg post_params
      score_threshold := score_threshold
      pre_top_k := resolved_pre_top_k cfg post_params
      keep_top_k := resolved_keep_top_k cfg post_params }
  else .raw bb fused

/-- Lines 66-133: decode every level against its anchors and stride
(lines 70-109), concatenate the per-level results (lines 111-113), and apply
the confidence- and score-thresholding stages (lines 115-133).  Returns
`(batch_mlvl_bboxes, batch_mlvl_scores, batch_mlvl_conf_scores)`. -/
def mergedTensors (σ : K → K) (deploy_cfg : DeployCfg K) (self : Head K)
    (pred_maps : List (PredMap K)) (cfg : TestCfg K) :
    BoxT K × ScoreT K × ConfT K :=
  let is_dynamic_flag := is_dynamic_shape deploy_cfg
  let featmap_sizes := pred_maps.map (fun pm =>
    (((pm.headD []).headD []).length, (((pm.headD []).headD []).headD []).length))
  let multi_lvl_anchors := self.grid_anchors featmap_sizes
  let decoded := (List.range self.num_levels).map (fun i =>
    let anchors := multi_lvl_anchors.getD i []
    -- lines 96-97: `.data` detaches the static anchors; values are unchanged
    let anchors := if is_dynamic_flag then anchors else anchors
    decodeLevel σ self anchors (self.featmap_strides.getD i 0) (pred_maps.getD i []))
  let batch_mlvl_bboxes := catDim1 (decoded.map (fun t => t.1))
  let batch_mlvl_scores := catDim1 (decoded.map (fun t => t.2.1))
  let batch_mlvl_conf_scores := catDim1 (decoded.map (fun t => t.2.2))
  let post_params := get_post_processing_params deploy_cfg
  let score_threshold := resolved_score_threshold cfg post_params
  let confidence_threshold := resolved_confidence_threshold cfg post_params
  let s1 := confThresholdStage confidence_threshold batch_mlvl_conf_scores
    batch_mlvl_scores batch_mlvl_bboxes
  let batch_mlvl_conf_scores := s1.1
  let batch_mlvl_scores := s1.2.1
  let batch_mlvl_bboxes := s1.2.2
  let batch_mlvl_scores := scoreThresholdStage score_threshold batch_mlvl_scores
  (batch_mlvl_bboxes, batch_mlvl_scores, batch_mlvl_conf_scores)

/-- Lines 66-178 of `yolov3_head__predict_by_feat`, after the level-count
assertion: `pred_maps_list[0]` fails on an empty sequence (line 67); otherwise
decode/concatenate/threshold (`mergedTensors`), optionally run the top-k stage
(`pre_topk > 0`, lines 135-157), and finish with `finalStage`
(lines 159-178). -/
def predictAfterAssert (σ : K → K) (deploy_cfg : DeployCfg K) (self : Head K)
    (pred_maps : List (PredMap K)) (cfg : TestCfg K) (with_nms : Bool) :
    Except PipelineError (PredictResult K) :=
  if pred_maps.isEmpty then .error .indexOutOfRange
  else
    match (if 0 < resolved_nms_pre cfg then
             topkStage self.num_classes (resolved_nms_pre cfg).toNat
               (mergedTensors σ deploy_cfg self pred_maps cfg).1
               (mergedTensors σ deploy_cfg self pred_maps cfg).2.1
               (mergedTensors σ deploy_cfg self pred_maps cfg).2.2
           else .ok (mergedTensors σ deploy_cfg self pred_maps cfg)) with
    | .error e => .error e
    | .ok (bb, ss, cc) =>
      .ok (finalStage cfg (get_post_processing_params deploy_cfg) with_nms bb ss cc)

/-- The generic-backend rewrite `yolov3_head__predict_by_feat` (lines 19-178).
`σ` is `torch.sigmoid`.  `rescale` is accepted (line 23) and never used by the
body.  `cfg = self.test_cfg if cfg is None else cfg` is line 64; the level
count assertion is line 65. -/
def yolov3_head__predict_by_feat (σ : K → K) (deploy_cfg : DeployCfg K) (self : Head K)
    (pred_maps : List (PredMap K)) (cfg : Option (TestCfg K)) (rescale : Bool)
    (with_nms : Bool) : Except PipelineError (PredictResult K) :=
  let _ := rescale
  let cfg := cfg.getD self.test_cfg
  if pred_maps.length = self.num_levels then
    predictAfterAssert σ deploy_cfg self pred_maps cfg with_nms
  else .error .levelCountMismatch

/-- Model of the global torch RNG behind `torch.rand(rows, cols)`: states are
naturals, draw `s` fills the tensor with the value `s` (cast into `K`) and
advances the state.  Any model in which successive draws differ is faithful
here; the actual uniform `[0, 1)` values of `torch.rand` are abstracted. -/
def torchRand (s : Nat) (rows cols : Nat) : List (List K) × Nat :=
  (List.replicate rows (List.replicate cols ((s : K))), s + 1)

/-- The symbolic `mmdeploy::Yolov3DetectionOutput` operator recorded at export
time (lines 263-273): its tensor inputs and attributes. -/
structure Yolov3DetectionOutput (K : Type) where
  inputs : List (PredMap K)
  num_class : Nat
  num_box : Nat
  confidence_threshold : K
  nms_threshold : K
  biases : List K
  mask : List Nat
  anchors_scale : List K
  deriving DecidableEq

/-- Lines 225-226: `np.array(self.prior_generator.base_sizes).reshape(-1)
.tolist()`: row-major flattening of the per-level, per-box `(w, h)` pairs. -/
def ncnn_anchor_biases (base_sizes : List (List (K × K))) : List K :=
  (base_sizes.map (fun lvl => (lvl.map (fun p => [p.1, p.2])).flatten)).flatten

/-- `Yolov3DetectionOutputOp.forward` (lines 251-256): the trace-time dummy
placeholder `torch.rand(100, 6)`. -/
def Yolov3DetectionOutputOp_forward (rng : Nat) : List (List K) × Nat :=
  torchRand rng 100 6

/-- The ncnn-backend rewrite `yolov3_head__predict_by_feat__ncnn`
(lines 184-281): marshal the operator attributes (lines 218-228), record the
symbolic operator, and return the trace-time dummy output, threading the
global RNG state.  `with_nms` is accepted and never used, as in the source. -/
def yolov3_head__predict_by_feat__ncnn (deploy_cfg : DeployCfg K) (self : Head K)
    (pred_maps : List (PredMap K)) (with_nms : Bool) (cfg : Option (TestCfg K))
    (rng : Nat) : (Yolov3DetectionOutput K × List (List K)) × Nat :=
  let _ := with_nms
  let num_levels := pred_maps.length
  let cfg := cfg.getD self.test_cfg
  let post_params := get_post_processing_params deploy_cfg
  let confidence_threshold := resolved_confidence_threshold cfg post_params
  let iou_threshold := resolved_iou_threshold cfg post_params
  let anchor_biases := ncnn_anchor_biases self.base_sizes
  let num_box := (self.base_sizes.headD []).length
  let bias_masks := List.range (num_levels * num_box)
  let fwd := Yolov3DetectionOutputOp_forward rng
  (({ inputs := pred_maps
      num_class := self.num_classes
      num_box := num_box
      confidence_threshold := confidence_threshold
      nms_threshold := iou_threshold
      biases := anchor_biases
      mask := bias_masks
      anchors_scale := self.featmap_strides }, fwd.1), fwd.2)

/-- Projects the payload out of a successful pipeline run (used only to state
closed witness facts about concrete runs). -/
def predictResultOf (r : Except PipelineError (PredictResult K)) : PredictResult K :=
  match r with
  | .ok x => x
  | .error _ => .raw [] []

/-! ## Concrete instances used by witnesses and counterexamples (over `ℤ`) -/

/-- A small deployment config: static shapes, integer-valued defaults. -/
def deployW : DeployCfg ℤ :=
  { is_dynamic := false
    post_params := { score_threshold := 1, confidence_threshold := 1,
                     iou_threshold := 1, max_output_boxes_per_class := 200,
                     pre_top_k := -1, keep_top_k := 100 } }

/-- A small concrete head: one level, one class, one box per cell,
`num_attrib = 5 + num_classes = 6`, additive box coder. -/
def headW : Head ℤ :=
  { num_levels := 1
    num_classes := 1
    num_attrib := 6
    featmap_strides := [32]
    grid_anchors := fun _ => [[[0, 0, 1, 1]]]
    bbox_decode := fun anc p _ => List.zipWith (· + ·) anc p
    base_sizes := [[(116, 90)]]
    test_cfg := {} }

/-- One raw prediction map for `headW`: batch 1, 6 channels, 1 by 1 cells. -/
def predMapW : PredMap ℤ :=
  [[[[1]], [[2]], [[3]], [[4]], [[5]], [[6]]]]

/-- Boxes for the cross-batch-leakage run: 2 batch items, 2 anchors. -/
def boxesC1 : BoxT ℤ := [[[10, 10, 10, 10], [11, 11, 11, 11]],
                         [[20, 20, 20, 20], [21, 21, 21, 21]]]

/-- Scores for the cross-batch-leakage run: batch 0 selects flat index 1
(anchor 0, class 1), batch 1 selects flat index 2 (anchor 1, class 0). -/
def scoresC1 : ScoreT ℤ := [[[1, 9], [2, 3]], [[1, 2], [9, 3]]]

/-- Objectness for the cross-batch-leakage run. -/
def confC1 : ConfT ℤ := [[1, 1], [1, 1]]

/-- A per-call config that supplies a `max_output_boxes_per_class` key. -/
def cfgC2 : TestCfg ℤ := { max_output_boxes_per_class := some 7 }

/-- A per-call config supplying `score_thr` and `nms_pre`. -/
def cfgW2 : TestCfg ℤ := { score_thr := some 2, nms_pre := some 3 }

/-- Objectness input for the C3 witness run. -/
def confW3 : ConfT ℤ := [[0, 2]]

/-- Scores input for the C3 witness run. -/
def scoresW3 : ScoreT ℤ := [[[5], [7]]]

/-- Boxes input for the C3 witness run. -/
def boxesW3 : BoxT ℤ := [[[1, 1, 1, 1], [2, 2, 2, 2]]]

/-- Scores input for the C4 witness run. -/
def scoresW4 : ScoreT ℤ := [[[1, 3]]]

/-- Boxes for the out-of-bounds run: 1 batch item, 1 anchor. -/
def boxesC5 : BoxT ℤ := [[[1, 2, 3, 4]]]

/-- Scores for the out-of-bounds run: 3 classes, the top flat index is 2. -/
def scoresC5 : ScoreT ℤ := [[[1, 2, 5]]]

/-- Objectness for the out-of-bounds run. -/
def confC5 : ConfT ℤ := [[1]]

end MMDeployYolo

namespace MMDeployYolo

/-! ## Theorems -/

/-- `getD` through `map`, at an in-bounds index. -/
theorem getD_map {α β : Type} (f : α → β) (l : List α) (i : Nat) (h : i < l.length)
    (d₁ : α) (d₂ : β) : (l.map f).getD i d₂ = f (l.getD i d₁) := by
  rw [List.getD_eq_getElem _ _ (by simpa using h), List.getD_eq_getElem _ _ h]
  simp

/-- `getD` through `zipWith`, at an index in bounds on both sides. -/
theorem getD_zipWith {α β γ : Type} {f : α → β → γ} {l₁ : List α} {l₂ : List β} {i : Nat}
    (h₁ : i < l₁.length) (h₂ : i < l₂.length) (d₁ : α) (d₂ : β) (d₃ : γ) :
    (List.zipWith f l₁ l₂).getD i d₃ = f (l₁.getD i d₁) (l₂.getD i d₂) := by
  have hz : i < (List.zipWith f l₁ l₂).length := by
    simp only [List.length_zipWith]
    omega
  rw [List.getD_eq_getElem _ _ hz, List.getD_eq_getElem _ _ h₁, List.getD_eq_getElem _ _ h₂]
  simp

/-- Two nested lists with equal length images have equal outer lengths. -/
theorem map_length_out {α β : Type} {xs : List (List α)} {ys : List (List β)}
    (h : xs.map List.length = ys.map List.length) : xs.length = ys.length := by
  have h2 := congrArg List.length h
  simpa using h2

/-- Two nested lists with equal length images have equal row lengths. -/
theorem map_length_row {α β : Type} {xs : List (List α)} {ys : List (List β)}
    (h : xs.map List.length = ys.map List.length) (b : Nat) (hby : b < ys.length) :
    (xs.getD b []).length = (ys.getD b []).length := by
  have hbx : b < xs.length := by rw [map_length_out h]; exact hby
  have e1 : (xs.map List.length).getD b 0 = (xs.getD b []).length :=
    getD_map List.length xs b hbx [] 0
  have e2 : (ys.map List.length).getD b 0 = (ys.getD b []).length :=
    getD_map List.length ys b hby [] 0
  rw [← e1, ← e2, h]

/-- `getD` through a triply nested elementwise `map`. -/
theorem getD_map_map_map {α β : Type} (g : α → β) (xs : List (List (List α)))
    (b a c : Nat) (hb : b < xs.length) (ha : a < (xs.getD b []).length)
    (hc : c < ((xs.getD b []).getD a []).length) (d0 : α) (d : β) :
    (((xs.map (fun rows => rows.map (fun r => r.map g))).getD b []).getD a []).getD c d =
      g (((xs.getD b []).getD a []).getD c d0) := by
  have e1 := getD_map (fun rows : List (List α) => rows.map (fun r => r.map g)) xs b hb [] []
  rw [e1]
  have e2 := getD_map (fun r : List α => r.map g) (xs.getD b []) a ha [] []
  rw [e2]
  exact getD_map g ((xs.getD b []).getD a []) c hc d0 d

/-- Claim C10: the `rescale` argument of the generic pipeline has no effect:
for every input, configuration and `with_nms` setting, `rescale=True` returns
exactly the same value as `rescale=False`. -/
theorem rescale_has_no_effect {K : Type} [LinearOrderedCommRing K] (σ : K → K)
    (deploy_cfg : DeployCfg K) (self : Head K) (pred_maps : List (PredMap K))
    (cfg : Option (TestCfg K)) (with_nms : Bool) :
    yolov3_head__predict_by_feat σ deploy_cfg self pred_maps cfg true with_nms =
      yolov3_head__predict_by_feat σ deploy_cfg self pred_maps cfg false with_nms := rfl

/-- Claim C1 (failing run): on `boxesC1`/`scoresC1`/`confC1` with two batch
items, two anchors, two classes and `nms_pre = 1`, the top-k gather stage
succeeds but batch 0's output row contains `[21, 21, 21, 21]`, which is the
box of batch 1 at anchor 1 and belongs to no batch-0 candidate: the stacked
divmod index tensor and the final `(batch, -1, ...)` reshape mix batch items,
contradicting "no cross-batch leakage". -/
theorem topk_gather_cross_batch_leakage :
    topkStage 2 1 boxesC1 scoresC1 confC1 =
      .ok ([[[10, 10, 10, 10], [21, 21, 21, 21]], [[11, 11, 11, 11], [20, 20, 20, 20]]],
           [[[1, 9], [9, 3]], [[2, 3], [1, 2]]],
           [[1, 1], [1, 1]]) ∧
    [(21 : ℤ), 21, 21, 21] ∈ boxesC1.getD 1 [] ∧
    [(21 : ℤ), 21, 21, 21] ∉ boxesC1.getD 0 [] := by decide

/-- Claim C5 (failing run): with one anchor (equal to `nms_pre`, so no padding
happens), three classes and scores `[1, 2, 5]`, the selected flat index 2 has
remainder 2 by the class count; the transformed index 2 is out of bounds for
the flattened one-row box tensor, so the gather raises. -/
theorem topk_gather_index_out_of_bounds :
    topkStage 3 1 boxesC5 scoresC5 confC5 = .error .gatherOutOfBounds := by decide

/-- Claim C9 (counterexample): two successive invocations of the ncnn rewrite
on identical prediction maps, configuration and head (the second call sees the
global RNG state left behind by the first) return different trace-time dummy
tensors: the result is not the same tensor value on every call. -/
theorem ncnn_dummy_output_varies :
    (yolov3_head__predict_by_feat__ncnn deployW headW [predMapW] true none 0).1.2 ≠
      (yolov3_head__predict_by_feat__ncnn deployW headW [predMapW] true none
        ((yolov3_head__predict_by_feat__ncnn deployW headW [predMapW] true none 0).2)).1.2 := by
  decide

/-- Claim C9 (amended): both pipelines are deterministic except for the dummy
tensor of the ncnn path: the generic rewrite is a pure function of its inputs;
the recorded ncnn operator (inputs and attributes) does not depend on the RNG
state; and the ncnn dummy output always has shape 100 by 6, though its values
are read from the advancing global RNG. -/
theorem pipelines_deterministic_modulo_rng {K : Type} [LinearOrderedCommRing K]
    (σ : K → K) (deploy_cfg : DeployCfg K) (self : Head K) (pred_maps : List (PredMap K))
    (cfg : Option (TestCfg K)) (rescale with_nms : Bool) (rng rng2 : Nat) :
    (yolov3_head__predict_by_feat σ deploy_cfg self pred_maps cfg rescale with_nms =
      yolov3_head__predict_by_feat σ deploy_cfg self pred_maps cfg rescale with_nms) ∧
    ((yolov3_head__predict_by_feat__ncnn deploy_cfg self pred_maps with_nms cfg rng).1.1 =
      (yolov3_head__predict_by_feat__ncnn deploy_cfg self pred_maps with_nms cfg rng2).1.1) ∧
    ((yolov3_head__predict_by_feat__ncnn deploy_cfg self pred_maps with_nms cfg rng).1.2).map
        List.length = List.replicate 100 6 := by
  refine ⟨rfl, rfl, ?_⟩
  simp [yolov3_head__predict_by_feat__ncnn, Yolov3DetectionOutputOp_forward, torchRand]

/-- Claim C2 (counterexample): the per-call config supplies
`max_output_boxes_per_class = 7` while the deployment default is `200`; the
NMS call produced by the generic pipeline uses `200`, so the per-call value is
not the one used even though the per-call config supplies the key. -/
theorem max_output_boxes_override_ignored :
    cfgC2.max_output_boxes_per_class = some 7 ∧
    deployW.post_params.max_output_boxes_per_class = 200 ∧
    (match yolov3_head__predict_by_feat (fun x => x) deployW headW [predMapW]
        (some cfgC2) false true with
     | .ok (.nmsCall a) => a.max_output_boxes_per_class
     | _ => 0) = 200 ∧ (200 : Int) ≠ 7 := by decide

/-- Claim C2 (amended): the score threshold, confidence threshold, IoU
threshold and keep-top-k are resolved per-call-first with deployment fallback;
`max_output_boxes_per_class` and the NMS-stage `pre_top_k` always come from
the deployment defaults (the per-call config is not consulted); and the
pre-NMS top-k (`nms_pre`) comes only from the per-call config with the literal
fallback `-1`. -/
theorem post_processing_params_resolution {K : Type} [LinearOrderedCommRing K]
    (cfg : TestCfg K) (post_params : PostParams K) :
    (∀ v, cfg.score_thr = some v → resolved_score_threshold cfg post_params = v) ∧
    (cfg.score_thr = none →
      resolved_score_threshold cfg post_params = post_params.score_threshold) ∧
    (∀ v, cfg.conf_thr = some v → resolved_confidence_threshold cfg post_params = v) ∧
    (cfg.conf_thr = none →
      resolved_confidence_threshold cfg post_params = post_params.confidence_threshold) ∧
    (∀ v, cfg.nms_iou_threshold = some v → resolved_iou_threshold cfg post_params = v) ∧
    (cfg.nms_iou_threshold = none →
      resolved_iou_threshold cfg post_params = post_params.iou_threshold) ∧
    (∀ v, cfg.max_per_img = some v → resolved_keep_top_k cfg post_params = v) ∧
    (cfg.max_per_img = none → resolved_keep_top_k cfg post_params = post_params.keep_top_k) ∧
    (resolved_max_output_boxes_per_class cfg post_params =
      post_params.max_output_boxes_per_class) ∧
    (resolved_pre_top_k cfg post_params = post_params.pre_top_k) ∧
    (∀ v, cfg.nms_pre = some v → resolved_nms_pre cfg = v) ∧
    (cfg.nms_pre = none → resolved_nms_pre cfg = -1) := by
  refine ⟨fun v h => ?_, fun h => ?_, fun v h => ?_, fun h => ?_, fun v h => ?_, fun h => ?_,
    fun v h => ?_, fun h => ?_, ?_, ?_, fun v h => ?_, fun h => ?_⟩ <;>
    simp [resolved_score_threshold, resolved_confidence_threshold, resolved_iou_threshold,
      resolved_keep_top_k, resolved_max_output_boxes_per_class, resolved_pre_top_k,
      resolved_nms_pre, *]

/-- Witness for the amended C2 at a concrete config: a supplied `score_thr`
wins, an omitted `conf_thr` falls back to the deployment default, and a
supplied `nms_pre` wins. -/
theorem post_processing_params_resolution_witness :
    resolved_score_threshold cfgW2 deployW.post_params = 2 ∧
    resolved_confidence_threshold cfgW2 deployW.post_params =
      deployW.post_params.confidence_threshold ∧
    resolved_nms_pre cfgW2 = 3 := by
  obtain ⟨h1, _, _, h4, _, _, _, _, _, _, h11, _⟩ :=
    post_processing_params_resolution cfgW2 deployW.post_params
  exact ⟨h1 2 rfl, h4 rfl, h11 3 rfl⟩

/-- Flattening a list of `(w, h)` pairs into coordinates doubles the length. -/
theorem pair_flatten_length {α : Type} (hd : List (α × α)) :
    ((hd.map (fun p : α × α => [p.1, p.2])).flatten).length = 2 * hd.length := by
  induction hd with
  | nil => simp
  | cons p tl ih =>
    simp only [List.map_cons, List.flatten_cons, List.length_append, List.length_cons,
      List.length_nil, ih]
    omega

/-- Length of the flattened ncnn anchor biases when every level lists the same
number of base boxes (`np.array` requires the nested structure to be
rectangular). -/
theorem ncnn_anchor_biases_length {K : Type} [LinearOrderedCommRing K]
    (bs : List (List (K × K))) (n : Nat) (h : ∀ lvl ∈ bs, lvl.length = n) :
    (ncnn_anchor_biases bs).length = bs.length * n * 2 := by
  induction bs with
  | nil => simp [ncnn_anchor_biases]
  | cons hd tl ih =>
    have hhd : hd.length = n := h hd (by simp)
    have ihh := ih (fun lvl hm => h lvl (by simp [hm]))
    simp only [ncnn_anchor_biases, List.map_cons, List.flatten_cons,
      List.length_append] at ihh ⊢
    rw [pair_flatten_length, ihh, hhd, List.length_cons]
    ring

/-- Claim C8: in the ncnn rewrite, the flattened anchor-biases attribute has
length (levels times boxes-per-level times 2), and the selection mask is
exactly the contiguous range `0, 1, ..., levels*boxes - 1`. -/
theorem ncnn_marshalling_spec {K : Type} [LinearOrderedCommRing K]
    (deploy_cfg : DeployCfg K) (self : Head K) (pred_maps : List (PredMap K))
    (with_nms : Bool) (cfg : Option (TestCfg K)) (rng : Nat)
    (hL : self.base_sizes.length = pred_maps.length)
    (hsq : ∀ lvl ∈ self.base_sizes, lvl.length = (self.base_sizes.headD []).length) :
    ((yolov3_head__predict_by_feat__ncnn deploy_cfg self pred_maps with_nms cfg
        rng).1.1.biases.length
      = pred_maps.length * (self.base_sizes.headD []).length * 2) ∧
    ((yolov3_head__predict_by_feat__ncnn deploy_cfg self pred_maps with_nms cfg rng).1.1.mask
      = List.range (pred_maps.length * (self.base_sizes.headD []).length)) := by
  constructor
  · show (ncnn_anchor_biases self.base_sizes).length = _
    rw [ncnn_anchor_biases_length self.base_sizes _ hsq, hL]
  · rfl

/-- The confidence mask has the outer length of its input. -/
theorem confidence_mask_length {K : Type} [LinearOrderedCommRing K]
    (thr : K) (conf : ConfT K) :
    (confidence_mask thr conf).length = conf.length := by
  simp [confidence_mask]

/-- The confidence mask has the row lengths of its input. -/
theorem confidence_mask_row_length {K : Type} [LinearOrderedCommRing K]
    (thr : K) (conf : ConfT K) (b : Nat) (hb : b < conf.length) :
    ((confidence_mask thr conf).getD b []).length = (conf.getD b []).length := by
  unfold confidence_mask
  rw [getD_map (fun row : List K => row.map (fun v => decide (thr ≤ v))) conf b hb [] []]
  simp

/-- Entries of the confidence mask. -/
theorem confidence_mask_getD {K : Type} [LinearOrderedCommRing K]
    (thr : K) (conf : ConfT K) (b a : Nat)
    (hb : b < conf.length) (ha : a < (conf.getD b []).length) :
    ((confidence_mask thr conf).getD b []).getD a true =
      decide (thr ≤ (conf.getD b []).getD a 0) := by
  unfold confidence_mask
  rw [getD_map (fun row : List K => row.map (fun v => decide (thr ≤ v))) conf b hb [] []]
  exact getD_map _ _ _ ha 0 true

/-- Entries of the two dimensional `where`. -/
theorem whereMask1_getD {K : Type} [LinearOrderedCommRing K]
    (mask : List (List Bool)) (x : ConfT K) (b a : Nat)
    (hbm : b < mask.length) (hbx : b < x.length)
    (ham : a < (mask.getD b []).length) (hax : a < (x.getD b []).length) :
    ((whereMask1 mask x).getD b []).getD a 0 =
      (if (mask.getD b []).getD a true then (x.getD b []).getD a 0 else 0) := by
  unfold whereMask1
  rw [getD_zipWith hbm hbx [] [] []]
  rw [getD_zipWith ham hax true 0 0]

/-- Entries of the broadcast three dimensional `where`. -/
theorem whereMask2_getD {K : Type} [LinearOrderedCommRing K]
    (mask : List (List Bool)) (x : List (List (List K))) (b a : Nat)
    (hbm : b < mask.length) (hbx : b < x.length)
    (ham : a < (mask.getD b []).length) (hax : a < (x.getD b []).length) :
    ((whereMask2 mask x).getD b []).getD a [] =
      (if (mask.getD b []).getD a true then (x.getD b []).getD a []
       else ((x.getD b []).getD a []).map (fun _ => 0)) := by
  unfold whereMask2
  rw [getD_zipWith hbm hbx [] [] []]
  rw [getD_zipWith ham hax true [] []]

/-- Masking the objectness with its own confidence mask keeps its shape. -/
theorem whereMask1_shape {K : Type} [LinearOrderedCommRing K]
    (thr : K) (conf : ConfT K) :
    (whereMask1 (confidence_mask thr conf) conf).map List.length = conf.map List.length := by
  apply List.ext_getElem
  · simp [whereMask1, confidence_mask]
  · intro i h1 h2
    simp [whereMask1, confidence_mask]

/-- Masking a three dimensional tensor of the same leading shape keeps its
shape. -/
theorem whereMask2_shape {K : Type} [LinearOrderedCommRing K]
    (thr : K) (conf : ConfT K) (x : List (List (List K)))
    (h : x.map List.length = conf.map List.length) :
    (whereMask2 (confidence_mask thr conf) x).map List.length = x.map List.length := by
  have hlen : x.length = conf.length := map_length_out h
  apply List.ext_getElem
  · simp [whereMask2, confidence_mask, hlen]
  · intro i h1 h2
    have hix : i < x.length := by simpa using h2
    have hic : i < conf.length := by rw [← hlen]; exact hix
    have hrow := map_length_row h i hic
    rw [List.getD_eq_getElem _ _ hix, List.getD_eq_getElem _ _ hic] at hrow
    simp only [whereMask2, confidence_mask, List.getElem_map, List.getElem_zipWith,
      List.length_zipWith, List.length_map]
    omega

/-- Claim C3: in the confidence-thresholding stage, for a positive threshold
exactly the candidates whose objectness is strictly below the threshold have
objectness, per-class scores and box zeroed while all others are unchanged and
every tensor keeps its shape; for a threshold of zero or below the stage is a
no-op. -/
theorem conf_threshold_stage_spec {K : Type} [LinearOrderedCommRing K]
    (thr : K) (conf : ConfT K) (scores : ScoreT K) (boxes : BoxT K)
    (hs : scores.map List.length = conf.map List.length)
    (hb : boxes.map List.length = conf.map List.length) :
    (thr ≤ 0 → confThresholdStage thr conf scores boxes = (conf, scores, boxes)) ∧
    (0 < thr →
      ((confThresholdStage thr conf scores boxes).1.map List.length = conf.map List.length ∧
       (confThresholdStage thr conf scores boxes).2.1.map List.length =
         scores.map List.length ∧
       (confThresholdStage thr conf scores boxes).2.2.map List.length =
         boxes.map List.length) ∧
      ∀ i a, i < conf.length → a < (conf.getD i []).length →
        ((((confThresholdStage thr conf scores boxes).1.getD i []).getD a 0 =
          (if (conf.getD i []).getD a 0 < thr then 0 else (conf.getD i []).getD a 0)) ∧
         (((confThresholdStage thr conf scores boxes).2.1.getD i []).getD a [] =
          (if (conf.getD i []).getD a 0 < thr
           then ((scores.getD i []).getD a []).map (fun _ => 0)
           else (scores.getD i []).getD a [])) ∧
         (((confThresholdStage thr conf scores boxes).2.2.getD i []).getD a [] =
          (if (conf.getD i []).getD a 0 < thr
           then ((boxes.getD i []).getD a []).map (fun _ => 0)
           else (boxes.getD i []).getD a [])))) := by
  constructor
  · intro h
    simp [confThresholdStage, not_lt.mpr h]
  · intro hpos
    have hsl : scores.length = conf.length := map_length_out hs
    have hbl : boxes.length = conf.length := map_length_out hb
    constructor
    · refine ⟨?_, ?_, ?_⟩
      · simp only [confThresholdStage, if_pos hpos]
        exact whereMask1_shape thr conf
      · simp only [confThresholdStage, if_pos hpos]
        exact whereMask2_shape thr conf scores hs
      · simp only [confThresholdStage, if_pos hpos]
        exact whereMask2_shape thr conf boxes hb
    · intro i a hi ha
      have him : i < (confidence_mask thr conf).length := by
        rw [confidence_mask_length]; exact hi
      have ham : a < ((confidence_mask thr conf).getD i []).length := by
        rw [confidence_mask_row_length thr conf i hi]; exact ha
      have his : i < scores.length := by rw [hsl]; exact hi
      have hib : i < boxes.length := by rw [hbl]; exact hi
      have has : a < (scores.getD i []).length := by
        rw [map_length_row hs i hi]; exact ha
      have hab : a < (boxes.getD i []).length := by
        rw [map_length_row hb i hi]; exact ha
      refine ⟨?_, ?_, ?_⟩
      · simp only [confThresholdStage, if_pos hpos]
        rw [whereMask1_getD _ _ i a him hi ham ha, confidence_mask_getD thr conf i a hi ha]
        by_cases hv : thr ≤ (conf.getD i []).getD a 0
        · rw [if_pos (by simpa using hv), if_neg (not_lt.mpr hv)]
        · rw [if_neg (by simpa using hv), if_pos (not_le.mp hv)]
      · simp only [confThresholdStage, if_pos hpos]
        rw [whereMask2_getD _ _ i a him his ham has,
          confidence_mask_getD thr conf i a hi ha]
        by_cases hv : thr ≤ (conf.getD i []).getD a 0
        · rw [if_pos (by simpa using hv), if_neg (not_lt.mpr hv)]
        · rw [if_neg (by simpa using hv), if_pos (not_le.mp hv)]
      · simp only [confThresholdStage, if_pos hpos]
        rw [whereMask2_getD _ _ i a him hib ham hab,
          confidence_mask_getD thr conf i a hi ha]
        by_cases hv : thr ≤ (conf.getD i []).getD a 0
        · rw [if_pos (by simpa using hv), if_neg (not_lt.mpr hv)]
        · rw [if_neg (by simpa using hv), if_pos (not_le.mp hv)]

/-- Witness for C3 at threshold 1: the anchor with objectness 0 has its
objectness, score row and box row zeroed; the anchor with objectness 2 is
untouched. -/
theorem conf_threshold_stage_spec_witness :
    ((confThresholdStage 1 confW3 scoresW3 boxesW3).1.getD 0 []).getD 0 0 = 0 ∧
    ((confThresholdStage 1 confW3 scoresW3 boxesW3).2.1.getD 0 []).getD 0 [] = [0] ∧
    ((confThresholdStage 1 confW3 scoresW3 boxesW3).1.getD 0 []).getD 1 0 = 2 ∧
    ((confThresholdStage 1 confW3 scoresW3 boxesW3).2.2.getD 0 []).getD 1 [] =
      [2, 2, 2, 2] := by
  have h := (conf_threshold_stage_spec 1 confW3 scoresW3 boxesW3
    (by decide) (by decide)).2 (by decide)
  have h0 := h.2 0 0 (by decide) (by decide)
  have h1 := h.2 0 1 (by decide) (by decide)
  refine ⟨?_, ?_, ?_, ?_⟩
  · rw [h0.1]; decide
  · rw [h0.2.1]; decide
  · rw [h1.1]; decide
  · rw [h1.2.2]; decide

/-- Claim C4: in the score-thresholding stage, for a positive threshold
exactly the per-class entries at or below the threshold are zeroed while all
other entries are unchanged and the shape is preserved; for a threshold of
zero or below the stage is a no-op. -/
theorem score_threshold_stage_spec {K : Type} [LinearOrderedCommRing K]
    (thr : K) (scores : ScoreT K) :
    (thr ≤ 0 → scoreThresholdStage thr scores = scores) ∧
    (0 < thr →
      ((scoreThresholdStage thr scores).map (fun rows => rows.map List.length) =
        scores.map (fun rows => rows.map List.length)) ∧
      ∀ b a c, b < scores.length → a < (scores.getD b []).length →
          c < ((scores.getD b []).getD a []).length →
        (((scoreThresholdStage thr scores).getD b []).getD a []).getD c 0 =
          (if ((scores.getD b []).getD a []).getD c 0 ≤ thr then 0
           else ((scores.getD b []).getD a []).getD c 0)) := by
  constructor
  · intro h
    simp [scoreThresholdStage, not_lt.mpr h]
  · intro hpos
    constructor
    · simp [scoreThresholdStage, hpos, List.map_map, Function.comp]
    · intro b a c hb ha hc
      simp only [scoreThresholdStage, if_pos hpos]
      rw [getD_map_map_map _ scores b a c hb ha hc 0 0]
      by_cases hv : thr < ((scores.getD b []).getD a []).getD c 0
      · rw [if_pos hv, if_neg (not_le.mpr hv)]
      · rw [if_neg hv, if_pos (not_lt.mp hv)]

/-- Witness for C4: at threshold 2 the entry 1 is zeroed and the entry 3 is
kept. -/
theorem score_threshold_stage_spec_witness :
    (((scoreThresholdStage 2 scoresW4).getD 0 []).getD 0 []).getD 0 0 = 0 ∧
    (((scoreThresholdStage 2 scoresW4).getD 0 []).getD 0 []).getD 1 0 = 3 := by
  have h := (score_threshold_stage_spec 2 scoresW4).2 (by decide)
  constructor
  · have e := h.2 0 0 0 (by decide) (by decide) (by decide)
    rw [e]; decide
  · have e := h.2 0 0 1 (by decide) (by decide) (by decide)
    rw [e]; decide

/-- The top-k stage never raises a level-count assertion failure. -/
theorem topkStage_ne_levelCountMismatch {K : Type} [LinearOrderedCommRing K]
    (num_classes pre_topk : Nat) (boxes : BoxT K) (scores : ScoreT K) (conf : ConfT K) :
    topkStage num_classes pre_topk boxes scores conf ≠ .error .levelCountMismatch := by
  intro h
  unfold topkStage at h
  simp only [] at h
  split at h
  · simp at h
  · split at h
    · split at h
      · simp at h
      · simp at h
    · simp at h

/-- After the assertion has passed, the rest of the generic pipeline never
reports a level-count mismatch. -/
theorem predictAfterAssert_ne_levelCountMismatch {K : Type} [LinearOrderedCommRing K]
    (σ : K → K) (deploy_cfg : DeployCfg K) (self : Head K) (pred_maps : List (PredMap K))
    (cfg : TestCfg K) (with_nms : Bool) :
    predictAfterAssert σ deploy_cfg self pred_maps cfg with_nms ≠
      .error .levelCountMismatch := by
  intro h
  unfold predictAfterAssert at h
  split at h
  · simp at h
  · split at h
    · next e heq =>
      have he : e = .levelCountMismatch := by
        injection h
      subst he
      split at heq
      · exact topkStage_ne_levelCountMismatch _ _ _ _ _ heq
      · simp at heq
    · simp at h

/-- Claim C7: the generic pipeline fails with the level-count assertion if and
only if the number of supplied prediction maps differs from the head's
configured number of pyramid levels. -/
theorem level_count_assertion_iff {K : Type} [LinearOrderedCommRing K]
    (σ : K → K) (deploy_cfg : DeployCfg K) (self : Head K) (pred_maps : List (PredMap K))
    (cfg : Option (TestCfg K)) (rescale with_nms : Bool) :
    yolov3_head__predict_by_feat σ deploy_cfg self pred_maps cfg rescale with_nms =
        .error .levelCountMismatch ↔ pred_maps.length ≠ self.num_levels := by
  unfold yolov3_head__predict_by_feat
  split
  · next hlen =>
    exact iff_of_false
      (predictAfterAssert_ne_levelCountMismatch σ deploy_cfg self pred_maps _ with_nms)
      (fun hne => hne hlen)
  · next hlen =>
    exact iff_of_true rfl hlen

/-- Witness for C7: one level configured, zero maps supplied, the assertion
fires. -/
theorem level_count_assertion_iff_witness :
    yolov3_head__predict_by_feat (fun x => x) deployW headW [] none false true =
      .error .levelCountMismatch :=
  (level_count_assertion_iff (fun x => x) deployW headW [] none false true).mpr (by decide)

/-- Every successful run of the generic pipeline ends in `finalStage`. -/
theorem predict_ok_shape {K : Type} [LinearOrderedCommRing K]
    (σ : K → K) (deploy_cfg : DeployCfg K) (self : Head K) (pred_maps : List (PredMap K))
    (cfg : Option (TestCfg K)) (rescale with_nms : Bool) (r : PredictResult K)
    (h : yolov3_head__predict_by_feat σ deploy_cfg self pred_maps cfg rescale with_nms =
      .ok r) :
    ∃ bb ss cc, r = finalStage (cfg.getD self.test_cfg)
      (get_post_processing_params deploy_cfg) with_nms bb ss cc := by
  unfold yolov3_head__predict_by_feat at h
  simp only [] at h
  split at h
  · unfold predictAfterAssert at h
    split at h
    · simp at h
    · split at h
      · simp at h
      · injection h with h2
        exact ⟨_, _, _, h2.symm⟩
  · simp at h

/-- Claim C6: with `with_nms = True` the generic pipeline hands the external
multiclass NMS a score threshold of zero, whatever the per-call config and the
deployment defaults say; with `with_nms = False` it returns the raw filtered
`(boxes, scores)` pair without any NMS call. -/
theorem with_nms_score_threshold_zero {K : Type} [LinearOrderedCommRing K]
    (σ : K → K) (deploy_cfg : DeployCfg K) (self : Head K) (pred_maps : List (PredMap K))
    (cfg : Option (TestCfg K)) (rescale : Bool) :
    (∀ r, yolov3_head__predict_by_feat σ deploy_cfg self pred_maps cfg rescale true =
        .ok r → ∃ a, r = .nmsCall a ∧ a.score_threshold = 0) ∧
    (∀ r, yolov3_head__predict_by_feat σ deploy_cfg self pred_maps cfg rescale false =
        .ok r → ∃ bb ss, r = .raw bb ss) := by
  constructor
  · intro r hr
    obtain ⟨bb, ss, cc, rfl⟩ :=
      predict_ok_shape σ deploy_cfg self pred_maps cfg rescale true r hr
    exact ⟨_, rfl, rfl⟩
  · intro r hr
    obtain ⟨bb, ss, cc, rfl⟩ :=
      predict_ok_shape σ deploy_cfg self pred_maps cfg rescale false r hr
    exact ⟨bb, fuseScores ss cc, rfl⟩

/-- Witness for C6: a concrete run that succeeds in both modes. -/
theorem with_nms_score_threshold_zero_witness :
    (∃ a, predictResultOf (yolov3_head__predict_by_feat (fun x => x) deployW headW
        [predMapW] none false true) = .nmsCall a ∧ a.score_threshold = 0) ∧
    (∃ bb ss, predictResultOf (yolov3_head__predict_by_feat (fun x => x) deployW headW
        [predMapW] none false false) = .raw bb ss) := by
  constructor
  · exact (with_nms_score_threshold_zero (fun x => x) deployW headW [predMapW]
      none false).1 _ (by decide)
  · exact (with_nms_score_threshold_zero (fun x => x) deployW headW [predMapW]
      none false).2 _ (by decide)

/-- Witness for C8 at the concrete one-level head. -/
theorem ncnn_marshalling_spec_witness :
    ((yolov3_head__predict_by_feat__ncnn deployW headW [predMapW] true none 0).1.1.biases.length
      = [predMapW].length * (headW.base_sizes.headD []).length * 2) ∧
    ((yolov3_head__predict_by_feat__ncnn deployW headW [predMapW] true none 0).1.1.mask
      = List.range ([predMapW].length * (headW.base_sizes.headD []).length)) :=
  ncnn_marshalling_spec deployW headW [predMapW] true none 0 (by decide) (by decide)

end MMDeployYolo
